import Mathlib

/-!
Verification of the yfinance backend server (`backend/main.py`).

The backend is a thin HTTP facade over the yfinance provider library.  Each
endpoint fetches raw provider data (the ticker `info` mapping, options
expirations, option-chain tables, earnings tables), validates presence of a
price, reshapes fields, and returns a fixed response shape.

Shallow embedding conventions:
* Python scalar values are modelled by `Val` (`None`, finite floats/ints as
  rationals, float NaN, strings, booleans).  Binary floating point is
  idealized by rational arithmetic.
* The provider `info` mapping and the pandas rows are association lists
  `List (String × Val)`; `dict.get` / `Series.get` semantics are `lookupVal`
  with a default.
* Fallible provider calls are `Except String α`; a raised `HTTPException`
  versus a generic exception is `PyExc`; the outer `try/except` of each
  route handler is `runEndpoint` (or a bespoke wrapper where the handler
  recovers, as in `/iv` and `/search`).
* `round(x, n)` is Python's round-half-to-even on the idealized rational
  value (`rhe`).
-/

attribute [local semireducible] Rat.add Rat.sub Rat.mul Rat.inv

/-- Python scalar values as they occur in provider records: `None`, a finite
number (int or float, idealized as a rational), float NaN, a string, or a
boolean. -/
inductive Val where
  | vnone : Val
  | vnum (q : ℚ) : Val
  | vnan : Val
  | vstr (s : String) : Val
  | vbool (b : Bool) : Val
deriving DecidableEq

/-- Python truthiness: `None` is falsy, numbers are truthy iff nonzero,
NaN is truthy, strings are truthy iff nonempty, booleans are themselves. -/
def truthy : Val → Bool
  | .vnone => false
  | .vnum q => decide (q ≠ 0)
  | .vnan => true
  | .vstr s => decide (s ≠ "")
  | .vbool b => b

/-- Python `a or b`: `a` if `a` is truthy, else `b`. -/
def pyOr (a b : Val) : Val := if truthy a then a else b

/-- Python `str(v)` on a scalar.  The exact rendering of numbers is
abstracted by `toString` on rationals; no claim depends on it. -/
def pyStr : Val → String
  | .vnone => "None"
  | .vnum q => toString q
  | .vnan => "nan"
  | .vstr s => s
  | .vbool b => if b then "True" else "False"

/-- Python `s.upper()`, modelled as per-character uppercasing of the
character list (ASCII-faithful; structural so the kernel can evaluate it). -/
def pyUpper (s : String) : String := String.mk (s.data.map Char.toUpper)

/-- A provider record (the ticker `info` dict) or a pandas row: an
association list from keys to scalar values. -/
abbrev Info := List (String × Val)

/-- First-match association lookup, the model of Python dict lookup. -/
def lookupVal (k : String) : Info → Option Val
  | [] => none
  | (k', v) :: rest => if k = k' then some v else lookupVal k rest

/-- Python `d.get(k)`: the stored value, or `None` when the key is absent. -/
def getv (info : Info) (k : String) : Val := (lookupVal k info).getD .vnone

/-- Python `d.get(k, default)`. -/
def getDv (info : Info) (k : String) (d : Val) : Val := (lookupVal k info).getD d

/-- Round to the nearest integer, ties to even: the idealized semantics of
Python's built-in `round` on the exact rational value.  Written with the
structurally computable `Rat.floor`; `ratFloor_eq_floor` bridges to `⌊q⌋`. -/
def rhe (q : ℚ) : ℤ :=
  if q - q.floor < 1/2 then q.floor
  else if 1/2 < q - q.floor then q.floor + 1
  else if q.floor % 2 = 0 then q.floor else q.floor + 1

/-- The computable `Rat.floor` agrees with the `⌊ ⌋` of the order structure. -/
theorem ratFloor_eq_floor (q : ℚ) : q.floor = ⌊q⌋ := by
  rw [Rat.floor_def, Rat.floor_def']

/-- Python `round(q, 1)`. -/
def round1 (q : ℚ) : ℚ := (rhe (q * 10) : ℚ) / 10

/-- Python `round(q, 2)`. -/
def round2 (q : ℚ) : ℚ := (rhe (q * 100) : ℚ) / 100

/-- Python `int(q)` on a float: truncation toward zero. -/
def ratTrunc (q : ℚ) : ℤ := if 0 ≤ q then q.floor else -(Rat.floor (-q))

/-- An exception escaping a route-handler body: an `HTTPException` carrying a
status code and detail, or any other exception with its message. -/
inductive PyExc where
  | http (code : ℕ) (detail : String) : PyExc
  | err (msg : String) : PyExc
deriving DecidableEq

/-- Computation of a route-handler body. -/
abbrev Py (α : Type) := Except PyExc α

/-- A provider call that raises becomes a generic (non-HTTP) exception in
the handler body. -/
def liftExc {α : Type} : Except String α → Py α
  | .ok a => .ok a
  | .error m => .error (.err m)

instance {ε α : Type} [DecidableEq ε] [DecidableEq α] : DecidableEq (Except ε α) := by
  intro x y
  cases x <;> cases y
  case error.error e f =>
    exact if h : e = f then .isTrue (by rw [h]) else .isFalse (by intro hh; cases hh; exact h rfl)
  case ok.ok a b =>
    exact if h : a = b then .isTrue (by rw [h]) else .isFalse (by intro hh; cases hh; exact h rfl)
  case error.ok e a => exact .isFalse (by intro hh; cases hh)
  case ok.error a e => exact .isFalse (by intro hh; cases hh)

/-- The observable outcome of a route: a response, or an HTTP error status
with a detail string. -/
inductive HResult (α : Type) where
  | ok (a : α) : HResult α
  | error (code : ℕ) (detail : String) : HResult α
deriving DecidableEq

/-- The standard `try/except` wrapper shared by most routes: re-raise
`HTTPException`s, turn any other exception into a 500 with its message. -/
def runEndpoint {α : Type} (body : Py α) : HResult α :=
  match body with
  | .ok a => .ok a
  | .error (.http c d) => .error c d
  | .error (.err m) => .error 500 m

/-- A ticker whose only observed provider call is the `info` fetch
(used by `/quote`, `/search`, `/fundamentals`). -/
structure InfoTicker where
  info : Except String Info

/-- The `QuoteResponse` pydantic model (`open` is a Lean keyword, hence
`open_`). -/
structure QuoteResponse where
  symbol : String
  price : Val
  previousClose : Val
  open_ : Val
  dayHigh : Val
  dayLow : Val
  volume : Val
  marketCap : Val
  shortName : Val
  longName : Val
  currency : Val
  exchange : Val
  fiftyTwoWeekHigh : Val
  fiftyTwoWeekLow : Val
  averageVolume : Val
  beta : Val
deriving DecidableEq

/-- Body of `GET /quote/{symbol}` (main.py lines 93-124). -/
def quoteBody (symbol : String) (t : InfoTicker) : Py QuoteResponse :=
  match liftExc t.info with
  | .error e => .error e
  | .ok info =>
    let price := pyOr (getv info "currentPrice") (getv info "regularMarketPrice")
    if truthy price = false then
      .error (.http 404 ("No data found for symbol: " ++ symbol))
    else
      .ok { symbol := pyUpper symbol
            price := price
            previousClose := getDv info "previousClose" price
            open_ := pyOr (getv info "open") (getv info "regularMarketOpen")
            dayHigh := pyOr (getv info "dayHigh") (getv info "regularMarketDayHigh")
            dayLow := pyOr (getv info "dayLow") (getv info "regularMarketDayLow")
            volume := pyOr (getv info "volume") (getv info "regularMarketVolume")
            marketCap := getv info "marketCap"
            shortName := getv info "shortName"
            longName := getv info "longName"
            currency := getDv info "currency" (.vstr "USD")
            exchange := getv info "exchange"
            fiftyTwoWeekHigh := getv info "fiftyTwoWeekHigh"
            fiftyTwoWeekLow := getv info "fiftyTwoWeekLow"
            averageVolume := getv info "averageVolume"
            beta := getv info "beta" }

/-- `GET /quote/{symbol}` with its `try/except` wrapper. -/
def get_quote (symbol : String) (t : InfoTicker) : HResult QuoteResponse :=
  runEndpoint (quoteBody symbol t)

/-- A row of the calls table as read by the `/iv` endpoint: the strike and
the (possibly absent) `impliedVolatility` column.  Only finite numeric
values are modelled for these two columns; an absent column triggers the
Python-side default `0.30`. -/
structure CallRow where
  strike : ℚ
  impliedVolatility : Option ℚ
deriving DecidableEq

/-- The row kept by `calls.loc[calls['distance'].idxmin()]` on a non-empty
table: pandas `idxmin` returns the label of the first row attaining the
minimal `|strike - current_price|`. -/
def atmBest (cp : ℚ) (r : CallRow) : List CallRow → CallRow
  | [] => r
  | s :: ss =>
    let b := atmBest cp s ss
    if |r.strike - cp| ≤ |b.strike - cp| then r else b

/-- ATM row selection on an arbitrary calls table (`none` on an empty
table, where the code instead raises a 404 before selecting). -/
def atmRow (cp : ℚ) : List CallRow → Option CallRow
  | [] => none
  | r :: rs => some (atmBest cp r rs)

/-- The `IVResponse` pydantic model. -/
structure IVResponse where
  symbol : String
  iv : ℚ
  atmStrike : Option ℚ
  expirationDate : Option String
  source : String
  timestamp : String
deriving DecidableEq

/-- Provider calls observed by `/iv/{symbol}`: the `info` fetch, the
expirations list, and per-expiry the calls table of the option chain. -/
structure IVTicker where
  info : Except String Info
  options : Except String (List String)
  calls : String → Except String (List CallRow)

/-- The estimated-IV computation of the no-options branch (main.py lines
152-156): `round(max(15, min(80, 20 + (beta - 1) * 15)), 1)`. -/
def estimatedIV (b : ℚ) : ℚ := round1 (max 15 (min 80 (20 + (b - 1) * 15)))

/-- Body of `GET /iv/{symbol}` (main.py lines 131-189), taking the clock
value `now` as a parameter.

Notes kept faithful to Python semantics:
* `info.get("beta", 1.0) or 1.0` uses truthiness, so a zero/None beta also
  becomes 1.
* a boolean beta is an int (`True - 1 = 0`); only `True` can reach the
  arithmetic since `False` is falsy.
* a NaN beta propagates: `min(80, nan) = 80` (Python `min` keeps the first
  argument when the comparison is false), then `max(15, 80) = 80` and
  `round(80.0, 1) = 80.0`.
* a non-numeric beta or current price raises a `TypeError` inside the
  `try`, which the route turns into the constant fallback (a NaN current
  price likewise reaches the fallback, via `idxmin` on an all-NaN column).
-/
def ivBody (symbol now : String) (t : IVTicker) : Py IVResponse :=
  match liftExc t.info with
  | .error e => .error e
  | .ok info =>
    let current_price := pyOr (getv info "currentPrice") (getv info "regularMarketPrice")
    if truthy current_price = false then
      .error (.http 404 ("No price data for symbol: " ++ symbol))
    else
      match liftExc t.options with
      | .error e => .error e
      | .ok [] =>
        match pyOr (getDv info "beta" (.vnum 1)) (.vnum 1) with
        | .vnum b =>
          .ok { symbol := pyUpper symbol, iv := estimatedIV b, atmStrike := none,
                expirationDate := none, source := "estimated_from_beta", timestamp := now }
        | .vbool bb =>
          .ok { symbol := pyUpper symbol, iv := estimatedIV (if bb then 1 else 0),
                atmStrike := none, expirationDate := none,
                source := "estimated_from_beta", timestamp := now }
        | .vnan =>
          .ok { symbol := pyUpper symbol, iv := 80, atmStrike := none,
                expirationDate := none, source := "estimated_from_beta", timestamp := now }
        | _ => .error (.err "TypeError: unsupported operand type for beta")
      | .ok (nearest_exp :: _) =>
        match liftExc (t.calls nearest_exp) with
        | .error e => .error e
        | .ok [] => .error (.http 404 ("No options data for symbol: " ++ symbol))
        | .ok (r :: rs) =>
          match current_price with
          | .vnum cp =>
            let atm := atmBest cp r rs
            let ivRaw := atm.impliedVolatility.getD (3/10)
            let ivPct := if ivRaw < 1 then ivRaw * 100 else ivRaw
            .ok { symbol := pyUpper symbol, iv := round1 ivPct,
                  atmStrike := some atm.strike, expirationDate := some nearest_exp,
                  source := "options_chain", timestamp := now }
          | _ => .error (.err "TypeError: unsupported strike arithmetic")

/-- `GET /iv/{symbol}` with its wrapper (main.py lines 191-201): an
`HTTPException` is surfaced, any other exception yields the constant
fallback response. -/
def get_implied_volatility (symbol now : String) (t : IVTicker) : HResult IVResponse :=
  match ivBody symbol now t with
  | .ok r => .ok r
  | .error (.http c d) => .error c d
  | .error (.err _) =>
    .ok { symbol := pyUpper symbol, iv := 30, atmStrike := none,
          expirationDate := none, source := "fallback", timestamp := now }

example :
    get_implied_volatility "spy" "T"
      ⟨.ok [("currentPrice", .vnum 100)], .ok ["2025-01-17"],
       fun _ => .ok [⟨95, some (1/4)⟩, ⟨105, some (3/10)⟩]⟩
      = .ok { symbol := "SPY", iv := 25, atmStrike := some 95,
              expirationDate := some "2025-01-17", source := "options_chain",
              timestamp := "T" } := by
  decide

example :
    get_implied_volatility "spy" "T"
      ⟨.ok [("currentPrice", .vnum 100), ("beta", .vnum 2)], .ok [], fun _ => .error "x"⟩
      = .ok { symbol := "SPY", iv := 35, atmStrike := none,
              expirationDate := none, source := "estimated_from_beta",
              timestamp := "T" } := by
  decide

/-- One entry of the `/search` results list (the `SearchResult` model;
the raw `info` values are passed through). -/
structure SearchResult where
  symbol : Val
  shortname : Val
  longname : Val
  exchange : Val
  quoteType : Val
deriving DecidableEq

/-- `GET /search?q=...` (main.py lines 204-229): resolve the query directly
as a ticker; any exception (the whole body is wrapped in
`except Exception`) yields the empty result list, never an error. -/
def search_symbols (q : String) (t : InfoTicker) : List SearchResult :=
  match t.info with
  | .error _ => []
  | .ok info =>
    if truthy (getv info "symbol") = true then
      [{ symbol := getv info "symbol", shortname := getv info "shortName",
         longname := getv info "longName", exchange := getv info "exchange",
         quoteType := getv info "quoteType" }]
    else []

/-- A row of an options dataframe in `/options/{symbol}`: arbitrary
provider columns. -/
abbrev Row := List (String × Val)

/-- `Series.get(k)` on a pandas row: the stored value or `None`. -/
def rowGet (r : Row) (k : String) : Val := (lookupVal k r).getD .vnone

/-- `Series.get(k, default)` on a pandas row. -/
def rowGetD (r : Row) (k : String) (d : Val) : Val := (lookupVal k r).getD d

/-- The `clean_value` helper of `process_options` (main.py lines 332-335):
`None` for `None`/NaN, the value itself otherwise. -/
def clean_value : Val → Option Val
  | .vnone => none
  | .vnan => none
  | v => some v

/-- Python `float(v)`: finite numbers and NaN pass through, booleans become
0/1, `None` raises a `TypeError`.  Parsing of numeric strings is not
modelled (no claim involves it); a string raises here. -/
def pyFloatCast : Val → Except String Val
  | .vnum q => .ok (.vnum q)
  | .vnan => .ok .vnan
  | .vbool b => .ok (.vnum (if b then 1 else 0))
  | _ => .error "TypeError: float() argument"

/-- Python `math.isnan(v)`: defined on numbers and booleans, raises a
`TypeError` otherwise. -/
def pyIsNan : Val → Except String Bool
  | .vnum _ => .ok false
  | .vnan => .ok true
  | .vbool _ => .ok false
  | _ => .error "TypeError: must be real number"

/-- Python `int(v)`: truncation for finite floats, 0/1 for booleans;
`int(nan)` raises `ValueError`, other values raise.  Parsing of numeric
strings is not modelled. -/
def pyIntCast : Val → Except String ℤ
  | .vnum q => .ok (ratTrunc q)
  | .vbool b => .ok (if b then 1 else 0)
  | _ => .error "ValueError: cannot convert to int"

/-- The volume / open-interest emission of `process_options` (main.py lines
345-346): `int(row.get(k, 0)) if row.get(k) and not math.isnan(row.get(k))
else None`.  Note the guard is Python truthiness of the raw value, and the
`isnan` call is reached only when the value is truthy. -/
def intField (r : Row) (k : String) : Except String (Option ℤ) :=
  if truthy (rowGet r k) = true then
    match pyIsNan (rowGet r k) with
    | .error e => .error e
    | .ok true => .ok none
    | .ok false =>
      match pyIntCast (rowGetD r k (.vnum 0)) with
      | .error e => .error e
      | .ok n => .ok (some n)
  else .ok none

/-- The implied-volatility emission of `process_options` (main.py lines
327-329 and 347): scale by 100 when truthy and `< 1`, then emit
`round(iv, 2)` when truthy, else `None`.  `NaN < 1` is false and NaN is
truthy, so a NaN IV is emitted as NaN; comparing a non-empty string with
`1` raises a `TypeError`. -/
def ivField (r : Row) : Except String (Option Val) :=
  let iv0 := rowGetD r "impliedVolatility" (.vnum 0)
  if truthy iv0 = true then
    match iv0 with
    | .vnum q =>
      let q2 := if q < 1 then q * 100 else q
      .ok (if q2 = 0 then none else some (.vnum (round2 q2)))
    | .vnan => .ok (some .vnan)
    | .vbool b => .ok (some (.vnum (round2 (if b then 1 else 0))))
    | _ => .error "TypeError: comparison not supported"
  else .ok none

/-- One emitted contract record of the options chain (the `OptionContract`
shape as built by `process_options`; `volume`/`openInterest` are the only
fields cast to `int`). -/
structure Contract where
  contractSymbol : Val
  strike : Val
  lastPrice : Option Val
  bid : Option Val
  ask : Option Val
  change : Option Val
  percentChange : Option Val
  volume : Option ℤ
  openInterest : Option ℤ
  impliedVolatility : Option Val
  inTheMoney : Option Bool
deriving DecidableEq

/-- One loop iteration of `process_options` (main.py lines 325-349).  The
implied-volatility expression of lines 327-329 is evaluated before the
record fields (Python evaluation order); the record fields are evaluated
in the listed order. -/
def processRow (r : Row) : Except String Contract :=
  match ivField r, pyFloatCast (rowGetD r "strike" (.vnum 0)),
        intField r "volume", intField r "openInterest" with
  | .ok ivv, .ok strikeV, .ok vol, .ok oi =>
    .ok { contractSymbol := rowGetD r "contractSymbol" (.vstr "")
          strike := strikeV
          lastPrice := clean_value (rowGet r "lastPrice")
          bid := clean_value (rowGet r "bid")
          ask := clean_value (rowGet r "ask")
          change := clean_value (rowGet r "change")
          percentChange := clean_value (rowGet r "percentChange")
          volume := vol
          openInterest := oi
          impliedVolatility := ivv
          inTheMoney := match lookupVal "inTheMoney" r with
                        | some v => some (truthy v)
                        | none => none }
  | .error e, _, _, _ => .error e
  | _, .error e, _, _ => .error e
  | _, _, .error e, _ => .error e
  | _, _, _, .error e => .error e

/-- `process_options` over a whole dataframe (main.py lines 322-350). -/
def process_options (df : List Row) : Except String (List Contract) :=
  df.mapM processRow

/-- Expiry resolution of `/options/{symbol}` (main.py line 317):
`expiry if expiry and expiry in expirations else expirations[0]`.  The
query parameter defaults to `None`; an empty string is falsy. -/
def selectExpiry (expiry : Option String) (exps : List String) : String :=
  match expiry with
  | some e => if e ≠ "" ∧ e ∈ exps then e else exps.headD ""
  | none => exps.headD ""

/-- Provider calls observed by `/options/{symbol}`: `info`, the
expirations list, and per-expiry the calls and puts tables. -/
structure OCTicker where
  info : Except String Info
  options : Except String (List String)
  chain : String → Except String (List Row × List Row)

/-- The `OptionsChainResponse` model. -/
structure OptionsChainResponse where
  symbol : String
  expiry : String
  expirations : List String
  underlyingPrice : Val
  calls : List Contract
  puts : List Contract
deriving DecidableEq

/-- Body of `GET /options/{symbol}` (main.py lines 291-362). -/
def ocBody (symbol : String) (expiry : Option String) (t : OCTicker) :
    Py OptionsChainResponse :=
  match liftExc t.info with
  | .error e => .error e
  | .ok info =>
    let current_price := pyOr (getv info "currentPrice") (getv info "regularMarketPrice")
    if truthy current_price = false then
      .error (.http 404 ("No price data for symbol: " ++ symbol))
    else
      match liftExc t.options with
      | .error e => .error e
      | .ok [] => .error (.http 404 ("No options available for symbol: " ++ symbol))
      | .ok (e0 :: rest) =>
        let selected := selectExpiry expiry (e0 :: rest)
        match liftExc (t.chain selected) with
        | .error e => .error e
        | .ok (callsDf, putsDf) =>
          match liftExc (process_options callsDf) with
          | .error e => .error e
          | .ok calls =>
            match liftExc (process_options putsDf) with
            | .error e => .error e
            | .ok puts =>
              .ok { symbol := pyUpper symbol, expiry := selected,
                    expirations := e0 :: rest, underlyingPrice := current_price,
                    calls := calls, puts := puts }

/-- `GET /options/{symbol}` with its standard wrapper. -/
def get_options_chain (symbol : String) (expiry : Option String) (t : OCTicker) :
    HResult OptionsChainResponse :=
  runEndpoint (ocBody symbol expiry t)

example :
    get_options_chain "xyz" (some "2099-01-01")
      ⟨.ok [("currentPrice", .vnum 50)], .ok ["2025-01-17", "2025-02-21"],
       fun _ => .ok ([[("contractSymbol", .vstr "C1"), ("strike", .vnum 50),
                       ("volume", .vnan)]], [])⟩
      = .ok { symbol := "XYZ", expiry := "2025-01-17",
              expirations := ["2025-01-17", "2025-02-21"],
              underlyingPrice := .vnum 50,
              calls := [{ contractSymbol := .vstr "C1", strike := .vnum 50,
                          lastPrice := none, bid := none, ask := none,
                          change := none, percentChange := none, volume := none,
                          openInterest := none, impliedVolatility := none,
                          inTheMoney := none }],
              puts := [] } := by
  decide

/-- The `FundamentalsResponse` model (main.py lines 370-424): raw provider
values passed through field by field; `exDividendDate` is stringified when
truthy. -/
structure FundamentalsResponse where
  symbol : String
  currentPrice : Val
  trailingPE : Val
  forwardPE : Val
  priceToBook : Val
  priceToSales : Val
  enterpriseToEbitda : Val
  enterpriseToRevenue : Val
  marketCap : Val
  enterpriseValue : Val
  trailingEps : Val
  forwardEps : Val
  pegRatio : Val
  profitMargins : Val
  operatingMargins : Val
  grossMargins : Val
  returnOnEquity : Val
  returnOnAssets : Val
  debtToEquity : Val
  currentRatio : Val
  quickRatio : Val
  targetLow : Val
  targetMean : Val
  targetMedian : Val
  targetHigh : Val
  numberOfAnalysts : Val
  recommendationKey : Val
  recommendationMean : Val
  beta : Val
  shortRatio : Val
  shortPercentOfFloat : Val
  heldPercentInsiders : Val
  heldPercentInstitutions : Val
  sector : Val
  industry : Val
  dividendYield : Val
  dividendRate : Val
  payoutRatio : Val
  exDividendDate : Option String
  revenueGrowth : Val
  earningsGrowth : Val
  fiftyTwoWeekHigh : Val
  fiftyTwoWeekLow : Val
  fiftyTwoWeekChange : Val
deriving DecidableEq

/-- Body of `GET /fundamentals/{symbol}` (main.py lines 427-496). -/
def fundamentalsBody (symbol : String) (t : InfoTicker) : Py FundamentalsResponse :=
  match liftExc t.info with
  | .error e => .error e
  | .ok info =>
    let current_price := pyOr (getv info "currentPrice") (getv info "regularMarketPrice")
    if truthy current_price = false then
      .error (.http 404 ("No data found for symbol: " ++ symbol))
    else
      .ok { symbol := pyUpper symbol
            currentPrice := current_price
            trailingPE := getv info "trailingPE"
            forwardPE := getv info "forwardPE"
            priceToBook := getv info "priceToBook"
            priceToSales := getv info "priceToSalesTrailingTwelveMonths"
            enterpriseToEbitda := getv info "enterpriseToEbitda"
            enterpriseToRevenue := getv info "enterpriseToRevenue"
            marketCap := getv info "marketCap"
            enterpriseValue := getv info "enterpriseValue"
            trailingEps := getv info "trailingEps"
            forwardEps := getv info "forwardEps"
            pegRatio := getv info "pegRatio"
            profitMargins := getv info "profitMargins"
            operatingMargins := getv info "operatingMargins"
            grossMargins := getv info "grossMargins"
            returnOnEquity := getv info "returnOnEquity"
            returnOnAssets := getv info "returnOnAssets"
            debtToEquity := getv info "debtToEquity"
            currentRatio := getv info "currentRatio"
            quickRatio := getv info "quickRatio"
            targetLow := getv info "targetLowPrice"
            targetMean := getv info "targetMeanPrice"
            targetMedian := getv info "targetMedianPrice"
            targetHigh := getv info "targetHighPrice"
            numberOfAnalysts := getv info "numberOfAnalystOpinions"
            recommendationKey := getv info "recommendationKey"
            recommendationMean := getv info "recommendationMean"
            beta := getv info "beta"
            shortRatio := getv info "shortRatio"
            shortPercentOfFloat := getv info "shortPercentOfFloat"
            heldPercentInsiders := getv info "heldPercentInsiders"
            heldPercentInstitutions := getv info "heldPercentInstitutions"
            sector := getv info "sector"
            industry := getv info "industry"
            dividendYield := getv info "dividendYield"
            dividendRate := getv info "dividendRate"
            payoutRatio := getv info "payoutRatio"
            exDividendDate := if truthy (getv info "exDividendDate") = true
                              then some (pyStr (getv info "exDividendDate")) else none
            revenueGrowth := getv info "revenueGrowth"
            earningsGrowth := getv info "earningsGrowth"
            fiftyTwoWeekHigh := getv info "fiftyTwoWeekHigh"
            fiftyTwoWeekLow := getv info "fiftyTwoWeekLow"
            fiftyTwoWeekChange := getv info "52WeekChange" }

/-- `GET /fundamentals/{symbol}` with its standard wrapper. -/
def get_fundamentals (symbol : String) (t : InfoTicker) : HResult FundamentalsResponse :=
  runEndpoint (fundamentalsBody symbol t)

/-- A row of the `ticker.earnings_dates` table: the (already stringified)
index date and the three observed columns. -/
structure EDRow where
  date : String
  epsEstimate : Val
  epsActual : Val
  surprise : Val
deriving DecidableEq

/-- One emitted entry of `earningsHistory`. -/
structure EDEntry where
  date : String
  epsEstimate : Option Val
  epsActual : Option Val
  surprise : Option Val
deriving DecidableEq

/-- The value of the calendar's `"Earnings Date"` entry: a list of date
objects (stringified per element) or a scalar. -/
inductive EDVal where
  | elist (l : List String) : EDVal
  | escalar (v : Val) : EDVal
deriving DecidableEq

/-- The `ticker.calendar` value: `None`, a non-dict value, or a dict with
an optional `"Earnings Date"` entry. -/
inductive Calendar where
  | cal_none : Calendar
  | cal_nondict : Calendar
  | cal_dict (ed : Option EDVal) : Calendar
deriving DecidableEq

/-- A row of `ticker.quarterly_earnings`: the stringified quarter index
and the `Revenue` / `Earnings` columns. -/
structure QRow where
  quarter : String
  revenue : Val
  earnings : Val
deriving DecidableEq

/-- One emitted entry of `quarterlyEarnings` (raw column values are passed
through without NaN-sanitization). -/
structure QEntry where
  quarter : String
  revenue : Val
  earnings : Val
deriving DecidableEq

/-- Earnings-dates processing (main.py lines 526-544): `None` when the
table is `None` or empty, else the first 12 rows with `safe_val` (alias of
NaN/None sanitization) applied to each column. -/
def procED : Option (List EDRow) → Option (List EDEntry)
  | none => none
  | some [] => none
  | some (r :: rs) =>
    some (((r :: rs).take 12).map fun x =>
      { date := x.date, epsEstimate := clean_value x.epsEstimate,
        epsActual := clean_value x.epsActual, surprise := clean_value x.surprise })

/-- Next-earnings-date extraction from the calendar (main.py lines
546-559): only a dict calendar with a truthy `"Earnings Date"` entry
yields a value; a non-empty list yields its stringified first element, a
truthy scalar is stringified. -/
def calendarNext : Calendar → Option String
  | .cal_dict (some (.elist (d :: _))) => some d
  | .cal_dict (some (.escalar v)) => if truthy v = true then some (pyStr v) else none
  | _ => none

/-- Quarterly-earnings processing (main.py lines 561-574): `None` when the
table is `None` or empty, else one entry per row. -/
def procQ : Option (List QRow) → Option (List QEntry)
  | none => none
  | some [] => none
  | some (r :: rs) =>
    some ((r :: rs).map fun x =>
      { quarter := x.quarter, revenue := x.revenue, earnings := x.earnings })

/-- Provider calls observed by `/earnings/{symbol}`: the three independent
sub-fetches, each of which may raise. -/
structure EarnTicker where
  earnings_dates : Except String (Option (List EDRow))
  calendar : Except String Calendar
  quarterly_earnings : Except String (Option (List QRow))

/-- The `EarningsResponse` model (the unused estimate fields are always
`None` in the code and omitted). -/
structure EarningsResponse where
  symbol : String
  nextEarningsDate : Option String
  earningsHistory : Option (List EDEntry)
  quarterlyEarnings : Option (List QEntry)
deriving DecidableEq

/-- Body of `GET /earnings/{symbol}` (main.py lines 513-581): each
sub-fetch sits in its own `try/except: pass`, so a failure leaves that
part `None` and touches nothing else. -/
def earnBody (symbol : String) (t : EarnTicker) : EarningsResponse :=
  { symbol := pyUpper symbol
    nextEarningsDate := match t.calendar with
                        | .ok c => calendarNext c
                        | .error _ => none
    earningsHistory := match t.earnings_dates with
                       | .ok ed => procED ed
                       | .error _ => none
    quarterlyEarnings := match t.quarterly_earnings with
                         | .ok qe => procQ qe
                         | .error _ => none }

/-- `GET /earnings/{symbol}`: nothing outside the three inner `try` blocks
can raise in the model, so the endpoint always returns 200. -/
def get_earnings (symbol : String) (t : EarnTicker) : HResult EarningsResponse :=
  .ok (earnBody symbol t)

theorem rhe_lb (q : ℚ) : ⌊q⌋ ≤ rhe q := by
  unfold rhe
  simp only [ratFloor_eq_floor]
  split_ifs <;> omega

theorem rhe_ub (q : ℚ) : rhe q ≤ ⌊q⌋ + 1 := by
  unfold rhe
  simp only [ratFloor_eq_floor]
  split_ifs <;> omega

theorem rhe_mono {x y : ℚ} (h : x ≤ y) : rhe x ≤ rhe y := by
  have hf : ⌊x⌋ ≤ ⌊y⌋ := Int.floor_mono h
  by_cases hlt : ⌊x⌋ < ⌊y⌋
  · have h1 : rhe x ≤ ⌊x⌋ + 1 := rhe_ub x
    have h2 : (⌊y⌋ : ℤ) ≤ rhe y := rhe_lb y
    omega
  · have heq : ⌊y⌋ = ⌊x⌋ := le_antisymm (not_lt.1 hlt) hf
    have hfl : ((⌊y⌋ : ℤ) : ℚ) = ((⌊x⌋ : ℤ) : ℚ) := by rw [heq]
    unfold rhe
    simp only [ratFloor_eq_floor, heq, hfl]
    split_ifs <;> first | omega | (exfalso; linarith)

theorem round1_mono {x y : ℚ} (h : x ≤ y) : round1 x ≤ round1 y := by
  unfold round1
  have h10 : x * 10 ≤ y * 10 := by linarith
  have := rhe_mono h10
  have hc : ((rhe (x * 10) : ℤ) : ℚ) ≤ ((rhe (y * 10) : ℤ) : ℚ) := by exact_mod_cast this
  linarith

theorem estimatedIV_mono {b1 b2 : ℚ} (h : b1 ≤ b2) : estimatedIV b1 ≤ estimatedIV b2 := by
  apply round1_mono
  have hz : 20 + (b1 - 1) * 15 ≤ 20 + (b2 - 1) * 15 := by linarith
  exact max_le_max le_rfl (min_le_min le_rfl hz)

theorem round1_fifteen : round1 15 = 15 := by decide

theorem round1_eighty : round1 80 = 80 := by decide

theorem estimatedIV_bounds (b : ℚ) : 15 ≤ estimatedIV b ∧ estimatedIV b ≤ 80 := by
  constructor
  · have h15 : (15 : ℚ) ≤ max 15 (min 80 (20 + (b - 1) * 15)) := le_max_left _ _
    have := round1_mono h15
    rw [round1_fifteen] at this
    exact this
  · have h80 : max 15 (min 80 (20 + (b - 1) * 15)) ≤ 80 :=
      max_le (by norm_num) (min_le_left _ _)
    have := round1_mono h80
    rw [round1_eighty] at this
    exact this

theorem atmBest_spec (cp : ℚ) (rs : List CallRow) :
    ∀ r : CallRow,
      ∃ i : ℕ, ∃ h : i < (r :: rs).length,
        atmBest cp r rs = (r :: rs).get ⟨i, h⟩ ∧
        (∀ j : ℕ, ∀ hj : j < (r :: rs).length,
          |(atmBest cp r rs).strike - cp| ≤ |((r :: rs).get ⟨j, hj⟩).strike - cp|) ∧
        (∀ j : ℕ, ∀ hj : j < (r :: rs).length, j < i →
          |(atmBest cp r rs).strike - cp| < |((r :: rs).get ⟨j, hj⟩).strike - cp|) := by
  induction rs with
  | nil =>
    intro r
    refine ⟨0, by simp, rfl, ?_, ?_⟩
    · intro j hj
      have hj1 : j < 1 := by simpa using hj
      have hj0 : j = 0 := by omega
      subst hj0
      simp [atmBest]
    · intro j hj hji
      omega
  | cons s ss ih =>
    intro r
    obtain ⟨i', h', heq, hmin, hfirst⟩ := ih s
    by_cases hle : |r.strike - cp| ≤ |(atmBest cp s ss).strike - cp|
    · have hval : atmBest cp r (s :: ss) = r := by
        simp only [atmBest]
        rw [if_pos hle]
      refine ⟨0, by simp, by simpa using hval, ?_, ?_⟩
      · intro j hj
        rw [hval]
        match j with
        | 0 => simp
        | Nat.succ k =>
          have hk : k < (s :: ss).length := by simpa using hj
          calc |r.strike - cp| ≤ |(atmBest cp s ss).strike - cp| := hle
            _ ≤ |((s :: ss).get ⟨k, hk⟩).strike - cp| := hmin k hk
            _ = |(((r :: s :: ss).get ⟨k + 1, hj⟩)).strike - cp| := by simp
      · intro j hj hji
        omega
    · have hval : atmBest cp r (s :: ss) = atmBest cp s ss := by
        simp only [atmBest]
        rw [if_neg hle]
      have hlt : |(atmBest cp s ss).strike - cp| < |r.strike - cp| := lt_of_not_le hle
      refine ⟨i' + 1, by simpa using h', ?_, ?_, ?_⟩
      · rw [hval, heq]
        simp
      · intro j hj
        rw [hval]
        match j with
        | 0 => exact le_of_lt (by simpa using hlt)
        | Nat.succ k =>
          have hk : k < (s :: ss).length := by simpa using hj
          calc |(atmBest cp s ss).strike - cp|
              ≤ |((s :: ss).get ⟨k, hk⟩).strike - cp| := hmin k hk
            _ = |(((r :: s :: ss).get ⟨k + 1, hj⟩)).strike - cp| := by simp
      · intro j hj hji
        rw [hval]
        match j with
        | 0 => simpa using hlt
        | Nat.succ k =>
          have hk : k < (s :: ss).length := by simpa using hj
          have hki : k < i' := by omega
          calc |(atmBest cp s ss).strike - cp|
              < |((s :: ss).get ⟨k, hk⟩).strike - cp| := hfirst k hk hki
            _ = |(((r :: s :: ss).get ⟨k + 1, hj⟩)).strike - cp| := by simp

/-- C1: in GetImpliedVolatility, when the options-chain path is taken (price
resolvable, a listed expiration, non-empty calls table), the emitted `iv`
for the raw implied-volatility value `v` read from the selected ATM calls
row (Python default `0.30` when the column is absent) is `round(v*100, 1)`
when `v < 1`, else `round(v, 1)`. -/
theorem claim_C1_iv_normalization
    (symbol now : String) (t : IVTicker) (info : Info) (cp : ℚ)
    (e0 : String) (rest : List String) (r : CallRow) (rs : List CallRow)
    (hinfo : t.info = .ok info)
    (hprice : pyOr (getv info "currentPrice") (getv info "regularMarketPrice") = .vnum cp)
    (hcp : cp ≠ 0)
    (hopt : t.options = .ok (e0 :: rest))
    (hcalls : t.calls e0 = .ok (r :: rs)) :
    get_implied_volatility symbol now t =
      .ok { symbol := pyUpper symbol,
            iv := if (atmBest cp r rs).impliedVolatility.getD (3/10) < 1
                  then round1 ((atmBest cp r rs).impliedVolatility.getD (3/10) * 100)
                  else round1 ((atmBest cp r rs).impliedVolatility.getD (3/10)),
            atmStrike := some (atmBest cp r rs).strike,
            expirationDate := some e0,
            source := "options_chain",
            timestamp := now } := by
  have hbody : ivBody symbol now t =
      .ok { symbol := pyUpper symbol,
            iv := round1 (if (atmBest cp r rs).impliedVolatility.getD (3/10) < 1
                          then (atmBest cp r rs).impliedVolatility.getD (3/10) * 100
                          else (atmBest cp r rs).impliedVolatility.getD (3/10)),
            atmStrike := some (atmBest cp r rs).strike,
            expirationDate := some e0,
            source := "options_chain",
            timestamp := now } := by
    unfold ivBody
    rw [hinfo, hopt]
    simp only [liftExc, hprice, hcalls, truthy]
    simp [hcp]
  unfold get_implied_volatility
  rw [hbody]
  rw [apply_ite round1]

/-- Witness for C1 at a concrete ticker: price 100, one expiration, two
call rows with fractional implied volatilities. -/
def c1Ticker : IVTicker :=
  ⟨.ok [("currentPrice", .vnum 100)], .ok ["2025-01-17"],
   fun _ => .ok [⟨95, some (1/4)⟩, ⟨105, some (3/10)⟩]⟩

theorem claim_C1_witness :
    get_implied_volatility "spy" "T" c1Ticker =
      .ok { symbol := pyUpper "spy",
            iv := if (atmBest 100 ⟨95, some (1/4)⟩ [⟨105, some (3/10)⟩]).impliedVolatility.getD (3/10) < 1
                  then round1 ((atmBest 100 ⟨95, some (1/4)⟩ [⟨105, some (3/10)⟩]).impliedVolatility.getD (3/10) * 100)
                  else round1 ((atmBest 100 ⟨95, some (1/4)⟩ [⟨105, some (3/10)⟩]).impliedVolatility.getD (3/10)),
            atmStrike := some (atmBest 100 ⟨95, some (1/4)⟩ [⟨105, some (3/10)⟩]).strike,
            expirationDate := some "2025-01-17",
            source := "options_chain",
            timestamp := "T" } :=
  claim_C1_iv_normalization "spy" "T" c1Ticker _ 100 "2025-01-17" [] _ _
    rfl (by decide) (by decide) rfl rfl

/-- C2: the ATM row selected on a non-empty calls table minimizes
`|strike - current_price|`, ties are broken by the first row in provider
order, and for strikes `[90, 100, 110]` at price 101 the strike-100 row is
selected. -/
theorem claim_C2_atm_selection :
    (∀ (cp : ℚ) (l : List CallRow), l ≠ [] →
      ∃ i : ℕ, ∃ h : i < l.length,
        atmRow cp l = some (l.get ⟨i, h⟩) ∧
        (∀ j : ℕ, ∀ hj : j < l.length,
          |(l.get ⟨i, h⟩).strike - cp| ≤ |(l.get ⟨j, hj⟩).strike - cp|) ∧
        (∀ j : ℕ, ∀ hj : j < l.length, j < i →
          |(l.get ⟨i, h⟩).strike - cp| < |(l.get ⟨j, hj⟩).strike - cp|)) ∧
    atmRow 101 [⟨90, none⟩, ⟨100, none⟩, ⟨110, none⟩] = some ⟨100, none⟩ := by
  constructor
  · intro cp l hl
    match l, hl with
    | r :: rs, _ =>
      obtain ⟨i, h, heq, hmin, hfirst⟩ := atmBest_spec cp rs r
      refine ⟨i, h, ?_, ?_, ?_⟩
      · simpa [atmRow] using congrArg some heq
      · intro j hj
        have := hmin j hj
        rwa [heq] at this
      · intro j hj hji
        have := hfirst j hj hji
        rwa [heq] at this
  · decide

theorem claim_C2_witness :
    ∃ i : ℕ, ∃ h : i < ([⟨90, none⟩, ⟨100, none⟩, ⟨110, none⟩] : List CallRow).length,
      atmRow 101 [⟨90, none⟩, ⟨100, none⟩, ⟨110, none⟩] =
        some (([⟨90, none⟩, ⟨100, none⟩, ⟨110, none⟩] : List CallRow).get ⟨i, h⟩) ∧
      (∀ j : ℕ, ∀ hj : j < ([⟨90, none⟩, ⟨100, none⟩, ⟨110, none⟩] : List CallRow).length,
        |(([⟨90, none⟩, ⟨100, none⟩, ⟨110, none⟩] : List CallRow).get ⟨i, h⟩).strike - 101| ≤
          |(([⟨90, none⟩, ⟨100, none⟩, ⟨110, none⟩] : List CallRow).get ⟨j, hj⟩).strike - 101|) ∧
      (∀ j : ℕ, ∀ hj : j < ([⟨90, none⟩, ⟨100, none⟩, ⟨110, none⟩] : List CallRow).length, j < i →
        |(([⟨90, none⟩, ⟨100, none⟩, ⟨110, none⟩] : List CallRow).get ⟨i, h⟩).strike - 101| <
          |(([⟨90, none⟩, ⟨100, none⟩, ⟨110, none⟩] : List CallRow).get ⟨j, hj⟩).strike - 101|) :=
  claim_C2_atm_selection.1 101 [⟨90, none⟩, ⟨100, none⟩, ⟨110, none⟩] (by decide)

/-- Ticker with no listed options and a fractional beta 1.234: the code
rounds the clamped estimate to one decimal (23.5), the claim's `clamp`
formula gives 23.51. -/
def c3Ticker1 : IVTicker :=
  ⟨.ok [("currentPrice", .vnum 100), ("beta", .vnum (617/500))], .ok [],
   fun _ => .error "no options"⟩

/-- Ticker with no listed options and beta 0: `info.get("beta", 1.0) or
1.0` replaces the falsy 0 by 1, so the code returns 20.0 while the claim's
formula with the provider's beta 0 gives `clamp(5) = 15`. -/
def c3Ticker2 : IVTicker :=
  ⟨.ok [("currentPrice", .vnum 100), ("beta", .vnum 0)], .ok [],
   fun _ => .error "no options"⟩

/-- C3 counterexample: the returned estimated iv does not equal the
unrounded `clamp(20 + (beta_or_1 - 1) * 15, 15, 80)` of the claim — the
code rounds to one decimal (beta 1.234 gives 23.5, not 23.51), and a
present-but-zero beta is replaced by 1 via truthiness (beta 0 gives 20.0,
not the claim's 15.0). -/
theorem claim_C3_counterexample :
    (get_implied_volatility "spy" "T" c3Ticker1 =
      .ok { symbol := "SPY", iv := 47/2, atmStrike := none, expirationDate := none,
            source := "estimated_from_beta", timestamp := "T" } ∧
     (47/2 : ℚ) ≠ max 15 (min 80 (20 + ((617/500 : ℚ) - 1) * 15))) ∧
    (get_implied_volatility "spy" "T" c3Ticker2 =
      .ok { symbol := "SPY", iv := 20, atmStrike := none, expirationDate := none,
            source := "estimated_from_beta", timestamp := "T" } ∧
     (20 : ℚ) ≠ max 15 (min 80 (20 + ((0 : ℚ) - 1) * 15))) := by
  decide

/-- C3 (amended): when the provider lists no options expirations, the
returned iv is `round(clamp(20 + (b - 1) * 15, 15, 80), 1)` with source
"estimated_from_beta", where `b` is the provider's beta when truthy
(present, non-null, nonzero) and 1 otherwise; this estimate is monotone
non-decreasing in `b`, always lies in `[15, 80]`, and takes the values
20.0 at beta 1, 80.0 at beta 5 and 15.0 at beta -1. -/
theorem claim_C3_estimated_iv :
    (∀ (symbol now : String) (t : IVTicker) (info : Info) (b : ℚ),
      t.info = .ok info →
      truthy (pyOr (getv info "currentPrice") (getv info "regularMarketPrice")) = true →
      t.options = .ok [] →
      pyOr (getDv info "beta" (.vnum 1)) (.vnum 1) = .vnum b →
      get_implied_volatility symbol now t =
        .ok { symbol := pyUpper symbol, iv := estimatedIV b, atmStrike := none,
              expirationDate := none, source := "estimated_from_beta",
              timestamp := now }) ∧
    (∀ b : ℚ, estimatedIV b = round1 (max 15 (min 80 (20 + (b - 1) * 15)))) ∧
    (∀ b1 b2 : ℚ, b1 ≤ b2 → estimatedIV b1 ≤ estimatedIV b2) ∧
    (∀ b : ℚ, 15 ≤ estimatedIV b ∧ estimatedIV b ≤ 80) ∧
    estimatedIV 1 = 20 ∧ estimatedIV 5 = 80 ∧ estimatedIV (-1) = 15 := by
  refine ⟨?_, fun _ => rfl, fun b1 b2 h => estimatedIV_mono h,
          estimatedIV_bounds, by decide, by decide, by decide⟩
  intro symbol now t info b hinfo hpt hopt hbeta
  have hbody : ivBody symbol now t =
      .ok { symbol := pyUpper symbol, iv := estimatedIV b, atmStrike := none,
            expirationDate := none, source := "estimated_from_beta",
            timestamp := now } := by
    unfold ivBody
    rw [hinfo, hopt]
    simp only [liftExc, hpt, hbeta]
    simp
  unfold get_implied_volatility
  rw [hbody]

theorem claim_C3_witness :
    get_implied_volatility "spy" "T" c3Ticker1 =
      .ok { symbol := pyUpper "spy", iv := estimatedIV (617/500), atmStrike := none,
            expirationDate := none, source := "estimated_from_beta",
            timestamp := "T" } :=
  claim_C3_estimated_iv.1 "spy" "T" c3Ticker1 _ (617/500) rfl (by decide) rfl (by decide)

/-- C4: any non-`HTTPException` failure of the `/iv` body is swallowed by
the route and turned into the constant fallback response with iv 30.0 and
source "fallback". -/
theorem claim_C4_iv_fallback
    (symbol now : String) (t : IVTicker) (m : String)
    (h : ivBody symbol now t = .error (.err m)) :
    get_implied_volatility symbol now t =
      .ok { symbol := pyUpper symbol, iv := 30, atmStrike := none,
            expirationDate := none, source := "fallback", timestamp := now } := by
  unfold get_implied_volatility
  rw [h]

/-- Ticker whose `info` fetch raises: the body fails with a generic
exception before anything else happens. -/
def c4Ticker : IVTicker := ⟨.error "boom", .error "boom", fun _ => .error "boom"⟩

theorem claim_C4_witness :
    get_implied_volatility "nflx" "T" c4Ticker =
      .ok { symbol := pyUpper "nflx", iv := 30, atmStrike := none,
            expirationDate := none, source := "fallback", timestamp := "T" } :=
  claim_C4_iv_fallback "nflx" "T" c4Ticker "boom" rfl

theorem rowGetD_of_rowGet {r : Row} {k : String} {v : Val}
    (h : rowGet r k = v) (hv : v ≠ .vnone) (d : Val) : rowGetD r k d = v := by
  unfold rowGet at h
  unfold rowGetD
  cases hl : lookupVal k r with
  | none =>
    rw [hl] at h
    simp at h
    exact absurd h.symm hv
  | some w =>
    rw [hl] at h
    simpa using h

theorem intField_num {r : Row} {k : String} {q : ℚ} (h : rowGet r k = .vnum q) :
    intField r k = .ok (if q = 0 then none else some (ratTrunc q)) := by
  unfold intField
  rw [h]
  by_cases hq : q = 0
  · subst hq
    simp [truthy]
  · have hd : rowGetD r k (.vnum 0) = .vnum q :=
      rowGetD_of_rowGet h (by simp) _
    simp [truthy, hq, hd, pyIsNan, pyIntCast]

theorem intField_nan {r : Row} {k : String} (h : rowGet r k = .vnan) :
    intField r k = .ok none := by
  unfold intField
  rw [h]
  simp [truthy, pyIsNan]

theorem intField_none {r : Row} {k : String} (h : rowGet r k = .vnone) :
    intField r k = .ok none := by
  unfold intField
  rw [h]
  simp [truthy]

theorem processRow_fields {r : Row} {c : Contract} (h : processRow r = .ok c) :
    intField r "volume" = .ok c.volume ∧
    intField r "openInterest" = .ok c.openInterest := by
  unfold processRow at h
  split at h
  next ivv strikeV vol oi hiv hstrike hvol hoi =>
    injection h with h'
    constructor
    · rw [hvol, ← h']
    · rw [hoi, ← h']
  next e _ _ _ _ => exact absurd h (by simp)
  next e _ _ _ _ _ => exact absurd h (by simp)
  next e _ _ _ _ _ => exact absurd h (by simp)
  next e _ _ _ _ _ => exact absurd h (by simp)

/-- Row with a present, non-NaN volume of 0: the guard
`row.get('volume') and not math.isnan(...)` is Python truthiness, so the
zero volume is emitted as absent, not as the integer 0 the claim requires
for any present non-NaN value. -/
def c5Row : Row :=
  [("contractSymbol", .vstr "XYZ250117C50"), ("strike", .vnum 50),
   ("volume", .vnum 0), ("openInterest", .vnum 7)]

/-- The contract record `process_options` emits for `c5Row`. -/
def c5Contract : Contract :=
  { contractSymbol := .vstr "XYZ250117C50", strike := .vnum 50,
    lastPrice := none, bid := none, ask := none, change := none,
    percentChange := none, volume := none, openInterest := some 7,
    impliedVolatility := none, inTheMoney := none }

/-- C5 counterexample: a row whose raw volume is present and not NaN (the
float 0.0) is emitted with `volume` absent, not with the integer cast
`some 0` that the claim requires. -/
theorem claim_C5_counterexample :
    rowGet c5Row "volume" = .vnum 0 ∧
    processRow c5Row = .ok c5Contract ∧
    c5Contract.volume ≠ some (ratTrunc 0) := by
  decide

/-- C5 (amended): for every processed row, the emitted `volume` and
`openInterest` are the integer cast of the raw value exactly when the raw
value is present, truthy (nonzero) and not NaN, and absent otherwise; in
particular a NaN or zero volume yields an absent `volume`, never 0.
`process_options` applies this row mapping to every row of the calls and
puts tables. -/
theorem claim_C5_volume_sanitization :
    (∀ (r : Row) (c : Contract), processRow r = .ok c →
      ((∀ q : ℚ, rowGet r "volume" = .vnum q →
          c.volume = if q = 0 then none else some (ratTrunc q)) ∧
       (rowGet r "volume" = .vnan → c.volume = none) ∧
       (rowGet r "volume" = .vnone → c.volume = none)) ∧
      ((∀ q : ℚ, rowGet r "openInterest" = .vnum q →
          c.openInterest = if q = 0 then none else some (ratTrunc q)) ∧
       (rowGet r "openInterest" = .vnan → c.openInterest = none) ∧
       (rowGet r "openInterest" = .vnone → c.openInterest = none))) ∧
    (∀ df : List Row, process_options df = List.mapM processRow df) := by
  refine ⟨?_, fun _ => rfl⟩
  intro r c h
  obtain ⟨hvol, hoi⟩ := processRow_fields h
  constructor
  · refine ⟨?_, ?_, ?_⟩
    · intro q hq
      have := (intField_num hq).symm.trans hvol
      simpa using this.symm
    · intro hq
      have := (intField_nan hq).symm.trans hvol
      simpa using this.symm
    · intro hq
      have := (intField_none hq).symm.trans hvol
      simpa using this.symm
  · refine ⟨?_, ?_, ?_⟩
    · intro q hq
      have := (intField_num hq).symm.trans hoi
      simpa using this.symm
    · intro hq
      have := (intField_nan hq).symm.trans hoi
      simpa using this.symm
    · intro hq
      have := (intField_none hq).symm.trans hoi
      simpa using this.symm

theorem claim_C5_witness :
    c5Contract.openInterest = if (7 : ℚ) = 0 then none else some (ratTrunc 7) :=
  ((claim_C5_volume_sanitization.1 c5Row c5Contract (by decide)).2).1 7 (by decide)

/-- Ticker whose expirations list pathologically contains the empty
string: the requested expiry `""` is a member, yet the guard
`expiry and expiry in expirations` is falsy and the first expiration is
fetched instead. -/
def c6Ticker : OCTicker :=
  ⟨.ok [("currentPrice", .vnum 100)], .ok ["2025-01-17", ""], fun _ => .ok ([], [])⟩

/-- C6 counterexample: an expiry that IS a member of the provider's
expirations list (the empty string) is not the one fetched — the code
requires the expiry to be truthy as well, so the first listed expiration
is used. -/
theorem claim_C6_counterexample :
    ("" ∈ ["2025-01-17", ""]) ∧
    get_options_chain "xyz" (some "") c6Ticker =
      .ok { symbol := "XYZ", expiry := "2025-01-17",
            expirations := ["2025-01-17", ""], underlyingPrice := .vnum 100,
            calls := [], puts := [] } ∧
    ("2025-01-17" : String) ≠ "" := by
  decide

/-- C6 (amended): with a resolvable price and a non-empty expirations
list, the chain is fetched for the requested expiry exactly when the
expiry is non-empty and a member of the provider's expirations list, and
otherwise (expiry empty, absent from the list, or not given) for the
first listed expiration; an unknown expiry is never an error. -/
theorem claim_C6_expiry_resolution :
    (∀ (symbol : String) (expiry : Option String) (t : OCTicker) (info : Info)
       (e0 : String) (rest : List String) (cdf pdf : List Row)
       (cs ps : List Contract),
      t.info = .ok info →
      truthy (pyOr (getv info "currentPrice") (getv info "regularMarketPrice")) = true →
      t.options = .ok (e0 :: rest) →
      t.chain (selectExpiry expiry (e0 :: rest)) = .ok (cdf, pdf) →
      process_options cdf = .ok cs →
      process_options pdf = .ok ps →
      get_options_chain symbol expiry t =
        .ok { symbol := pyUpper symbol,
              expiry := selectExpiry expiry (e0 :: rest),
              expirations := e0 :: rest,
              underlyingPrice := pyOr (getv info "currentPrice") (getv info "regularMarketPrice"),
              calls := cs, puts := ps }) ∧
    (∀ (e e0 : String) (rest : List String),
      e ≠ "" → e ∈ e0 :: rest → selectExpiry (some e) (e0 :: rest) = e) ∧
    (∀ (e e0 : String) (rest : List String),
      e ∉ e0 :: rest → selectExpiry (some e) (e0 :: rest) = e0) ∧
    (∀ (e0 : String) (rest : List String), selectExpiry none (e0 :: rest) = e0) := by
  refine ⟨?_, ?_, ?_, fun e0 rest => rfl⟩
  · intro symbol expiry t info e0 rest cdf pdf cs ps hinfo hpt hopt hchain hcs hps
    unfold get_options_chain runEndpoint ocBody
    rw [hinfo, hopt]
    simp only [liftExc, hpt, hchain, hcs, hps]
    simp
  · intro e e0 rest he hmem
    simp [selectExpiry, he, hmem]
  · intro e e0 rest hmem
    simp [selectExpiry, hmem]

/-- Ticker for the C6 witness: two normal expirations, the second one is
requested. -/
def c6WTicker : OCTicker :=
  ⟨.ok [("currentPrice", .vnum 100)], .ok ["2025-01-17", "2025-02-21"],
   fun _ => .ok ([], [])⟩

theorem claim_C6_witness :
    get_options_chain "xyz" (some "2025-02-21") c6WTicker =
      .ok { symbol := pyUpper "xyz",
            expiry := selectExpiry (some "2025-02-21") ["2025-01-17", "2025-02-21"],
            expirations := ["2025-01-17", "2025-02-21"],
            underlyingPrice := pyOr (getv [("currentPrice", .vnum 100)] "currentPrice")
                                    (getv [("currentPrice", .vnum 100)] "regularMarketPrice"),
            calls := [], puts := [] } :=
  claim_C6_expiry_resolution.1 "xyz" (some "2025-02-21") c6WTicker
    [("currentPrice", .vnum 100)] "2025-01-17" ["2025-02-21"] [] [] [] []
    rfl (by decide) rfl rfl rfl rfl

/-- C7: for every symbol with a resolvable price, GetQuote's
`previousClose` is the provider's stored value when the key is present
(whatever it is, `None` included) and the resolved price when the key is
absent. -/
theorem claim_C7_previous_close
    (symbol : String) (t : InfoTicker) (info : Info)
    (hinfo : t.info = .ok info)
    (hpt : truthy (pyOr (getv info "currentPrice") (getv info "regularMarketPrice")) = true) :
    ∃ resp : QuoteResponse,
      get_quote symbol t = .ok resp ∧
      (∀ v : Val, lookupVal "previousClose" info = some v → resp.previousClose = v) ∧
      (lookupVal "previousClose" info = none →
        resp.previousClose =
          pyOr (getv info "currentPrice") (getv info "regularMarketPrice")) := by
  have hq : get_quote symbol t =
      .ok { symbol := pyUpper symbol
            price := pyOr (getv info "currentPrice") (getv info "regularMarketPrice")
            previousClose := getDv info "previousClose"
              (pyOr (getv info "currentPrice") (getv info "regularMarketPrice"))
            open_ := pyOr (getv info "open") (getv info "regularMarketOpen")
            dayHigh := pyOr (getv info "dayHigh") (getv info "regularMarketDayHigh")
            dayLow := pyOr (getv info "dayLow") (getv info "regularMarketDayLow")
            volume := pyOr (getv info "volume") (getv info "regularMarketVolume")
            marketCap := getv info "marketCap"
            shortName := getv info "shortName"
            longName := getv info "longName"
            currency := getDv info "currency" (.vstr "USD")
            exchange := getv info "exchange"
            fiftyTwoWeekHigh := getv info "fiftyTwoWeekHigh"
            fiftyTwoWeekLow := getv info "fiftyTwoWeekLow"
            averageVolume := getv info "averageVolume"
            beta := getv info "beta" } := by
    unfold get_quote runEndpoint quoteBody
    rw [hinfo]
    simp only [liftExc, hpt]
    simp
  refine ⟨_, hq, ?_, ?_⟩
  · intro v hv
    simp [getDv, hv]
  · intro hv
    simp [getDv, hv]

/-- Record for the C7 witness: `previousClose` present. -/
def c7Info : Info := [("currentPrice", .vnum 10), ("previousClose", .vnum 9)]

theorem claim_C7_witness :
    ∃ resp : QuoteResponse,
      get_quote "aapl" ⟨.ok c7Info⟩ = .ok resp ∧
      (∀ v : Val, lookupVal "previousClose" c7Info = some v → resp.previousClose = v) ∧
      (lookupVal "previousClose" c7Info = none →
        resp.previousClose =
          pyOr (getv c7Info "currentPrice") (getv c7Info "regularMarketPrice")) :=
  claim_C7_previous_close "aapl" ⟨.ok c7Info⟩ c7Info rfl (by decide)

/-- C8: SearchSymbol never surfaces an error — the result list has at most
one element, any provider failure yields the empty list, and so does a
record without a `symbol` key. -/
theorem claim_C8_search_total (q : String) (t : InfoTicker) :
    (search_symbols q t).length ≤ 1 ∧
    (∀ e : String, t.info = .error e → search_symbols q t = []) ∧
    (∀ info : Info, t.info = .ok info → lookupVal "symbol" info = none →
      search_symbols q t = []) := by
  refine ⟨?_, ?_, ?_⟩
  · unfold search_symbols
    cases t.info with
    | error e => simp
    | ok info =>
      by_cases h : truthy (getv info "symbol") = true
      · simp [h]
      · simp [h]
  · intro e he
    unfold search_symbols
    rw [he]
  · intro info hi hsym
    unfold search_symbols
    rw [hi]
    simp [getv, hsym, truthy]

theorem claim_C8_witness :
    search_symbols "zzzz" ⟨.error "boom"⟩ = [] :=
  (claim_C8_search_total "zzzz" ⟨.error "boom"⟩).2.1 "boom" rfl

/-- C9: the three earnings sub-fetches are independent — failing any
single one only nulls the corresponding response part and leaves the
parts produced by the other two sub-fetches exactly as they were. -/
theorem claim_C9_earnings_independence (symbol : String) (t : EarnTicker) (e : String) :
    get_earnings symbol { t with earnings_dates := .error e } =
      .ok { earnBody symbol t with earningsHistory := none } ∧
    get_earnings symbol { t with calendar := .error e } =
      .ok { earnBody symbol t with nextEarningsDate := none } ∧
    get_earnings symbol { t with quarterly_earnings := .error e } =
      .ok { earnBody symbol t with quarterlyEarnings := none } :=
  ⟨rfl, rfl, rfl⟩

/-- C10: price resolution uses Python truthiness, not key presence: when
`currentPrice` and `regularMarketPrice` are both present but falsy (0 or
null), GetQuote, GetImpliedVolatility, GetOptionsChain and GetFundamentals
all return 404, and the `/iv` route in particular never reaches the
beta-estimate fallback. -/
theorem claim_C10_truthiness_price
    (symbol now : String) (info : Info) (v1 v2 : Val)
    (h1 : lookupVal "currentPrice" info = some v1)
    (h2 : lookupVal "regularMarketPrice" info = some v2)
    (ht1 : truthy v1 = false) (ht2 : truthy v2 = false) :
    (∀ t : InfoTicker, t.info = .ok info →
      get_quote symbol t = .error 404 ("No data found for symbol: " ++ symbol)) ∧
    (∀ t : IVTicker, t.info = .ok info →
      get_implied_volatility symbol now t =
        .error 404 ("No price data for symbol: " ++ symbol)) ∧
    (∀ (expiry : Option String) (t : OCTicker), t.info = .ok info →
      get_options_chain symbol expiry t =
        .error 404 ("No price data for symbol: " ++ symbol)) ∧
    (∀ t : InfoTicker, t.info = .ok info →
      get_fundamentals symbol t = .error 404 ("No data found for symbol: " ++ symbol)) := by
  have hpr : pyOr (getv info "currentPrice") (getv info "regularMarketPrice") = v2 := by
    simp [pyOr, getv, h1, h2, ht1]
  have hfalse : truthy (pyOr (getv info "currentPrice") (getv info "regularMarketPrice")) = false := by
    rw [hpr]
    exact ht2
  refine ⟨?_, ?_, ?_, ?_⟩
  · intro t ht
    unfold get_quote runEndpoint quoteBody
    rw [ht]
    simp only [liftExc, hfalse]
    simp
  · intro t ht
    unfold get_implied_volatility ivBody
    rw [ht]
    simp only [liftExc, hfalse]
    simp
  · intro expiry t ht
    unfold get_options_chain runEndpoint ocBody
    rw [ht]
    simp only [liftExc, hfalse]
    simp
  · intro t ht
    unfold get_fundamentals runEndpoint fundamentalsBody
    rw [ht]
    simp only [liftExc, hfalse]
    simp

/-- Record for the C10 witness: both price keys present, one zero and one
null. -/
def c10Info : Info := [("currentPrice", .vnum 0), ("regularMarketPrice", .vnone)]

theorem claim_C10_witness :
    get_quote "fake" ⟨.ok c10Info⟩ =
      .error 404 ("No data found for symbol: " ++ "fake") :=
  (claim_C10_truthiness_price "fake" "T" c10Info (.vnum 0) .vnone
    (by decide) (by decide) (by decide) (by decide)).1 ⟨.ok c10Info⟩ rfl
